import Mathlib

/-!
Verification development for the audio capture and hand-off pipeline of
`src/whisper_app.py` (a desktop speech-to-text recorder).

The Python class `WhisperApp` is embedded shallowly:
* float audio samples become rationals (`Sample := ℚ`);
* the mutable instance attributes (`is_recording`, `recording_data`,
  `recording_stream`, `file_path`, `status`, `result_text`) become the
  fields of the structure `WhisperApp`, with an added counter
  `open_streams` of input streams that were started and not yet closed;
* side effects (wave-file writes, `flush`, `fsync`, status updates,
  message boxes, the transcription call) become an explicit trace of
  `AppEvent`s returned alongside the new state;
* fallible file output is threaded as an `Except WriteError Unit`
  parameter; an exception that the Python code does not catch is returned
  as an `Option WriteError` component of the result;
* the external audio subsystem (`sounddevice`) is modelled at its
  boundary: `sd.rec(n)` + `sd.wait()` deliver exactly `n` samples of the
  device signal, and the open-ended stream invokes the capture callback
  once per delivered chunk.
-/

/-- Audio samples: the Python code works with normalized floating-point
mono samples in `[-1, 1]`; they are modelled as rationals. -/
abbrev Sample := ℚ

/-- One block of samples delivered by the audio callback. -/
abbrev Chunk := List Sample

/-- Toward-zero truncation of a rational number, the rounding performed by
the C-style float-to-integer cast underlying `np.int16`. -/
def truncToward0 (q : ℚ) : ℤ :=
  if 0 ≤ q then ⌊q⌋ else ⌈q⌉

/-- Wrapping of an arbitrary integer into the signed 16-bit range
`[-32768, 32767]`, the overflow behaviour of the `np.int16` cast
(two's-complement wrap-around, not saturation). -/
def int16Wrap (n : ℤ) : ℤ :=
  (n + 32768) % 65536 - 32768

/-- The float-to-int16 conversion `np.int16(x * 32767)` used at
`whisper_app.py:176`, `:213` and `:288`: scale by 32767, truncate toward
zero, wrap into the signed 16-bit range. -/
def int16OfSample (x : Sample) : ℤ :=
  int16Wrap (truncToward0 (x * 32767))

lemma truncToward0_mono {x y : ℚ} (h : x ≤ y) :
    truncToward0 x ≤ truncToward0 y := by
  unfold truncToward0
  by_cases hx : 0 ≤ x <;> by_cases hy : 0 ≤ y
  · simpa [hx, hy] using Int.floor_mono h
  · exact absurd (le_trans hx h) hy
  · have h1 : ⌈x⌉ ≤ 0 := Int.ceil_le.mpr (by exact_mod_cast le_of_not_le hx)
    have h2 : (0 : ℤ) ≤ ⌊y⌋ := Int.floor_nonneg.mpr hy
    simp only [hx, hy, if_true, if_false]
    omega
  · simpa [hx, hy] using Int.ceil_mono h

lemma truncToward0_intCast (n : ℤ) : truncToward0 (n : ℚ) = n := by
  unfold truncToward0
  by_cases h : (0 : ℚ) ≤ (n : ℚ) <;> simp [h]

lemma truncToward0_bounds {x : ℚ} (h1 : -1 ≤ x) (h2 : x ≤ 1) :
    -32767 ≤ truncToward0 (x * 32767) ∧ truncToward0 (x * 32767) ≤ 32767 := by
  have hlo : ((-32767 : ℤ) : ℚ) ≤ x * 32767 := by push_cast; nlinarith
  have hhi : x * 32767 ≤ ((32767 : ℤ) : ℚ) := by push_cast; nlinarith
  constructor
  · have := truncToward0_mono hlo
    rwa [truncToward0_intCast] at this
  · have := truncToward0_mono hhi
    rwa [truncToward0_intCast] at this

lemma int16Wrap_eq_of_bounds {n : ℤ} (h1 : -32768 ≤ n) (h2 : n ≤ 32767) :
    int16Wrap n = n := by
  unfold int16Wrap
  omega

lemma int16OfSample_in_range {x : ℚ} (h1 : -1 ≤ x) (h2 : x ≤ 1) :
    int16OfSample x = truncToward0 (x * 32767) := by
  obtain ⟨hlo, hhi⟩ := truncToward0_bounds h1 h2
  exact int16Wrap_eq_of_bounds (by omega) hhi

/-- Fixed recording sample rate (`self.sample_rate = 16000`). -/
def sample_rate : Nat := 16000

/-- Fixed duration of the blocking recording mode (`self.record_duration = 5`). -/
def record_duration : Nat := 5

/-- Fixed output filename (`self.output_wav = "recorded_audio.wav"`); the
absolute-path derivation by `os.path.abspath` is filesystem state and is
identified with this name. -/
def output_wav : String := "recorded_audio.wav"

/-- A failure of the wave-file output (disk full, permission denied). -/
inductive WriteError where
  | diskFull
  | permissionDenied
deriving DecidableEq

/-- One entry of the platform audio device list, as seen through
`sd.query_devices()`: a name and the maximal input channel count. -/
structure SoundDevice where
  name : String
  max_input_channels : Nat
deriving DecidableEq

/-- Observable side effects of the embedded methods, in program order. -/
inductive AppEvent where
  /-- `wavfile.write(f, rate, data)` on the opened output file. -/
  | wavWrite (path : String) (data : List ℤ)
  /-- `f.flush()` -/
  | fileFlush
  /-- `os.fsync(f.fileno())` -/
  | fileSync
  /-- `self.file_path.set(path)`: the hand-off of the artifact path. -/
  | setFilePath (path : String)
  /-- `self.status.set(msg)` -/
  | setStatus (msg : String)
  /-- `messagebox.showerror(...)` -/
  | showError (msg : String)
  /-- `self.result_text.delete(1.0, tk.END)` -/
  | clearResult
  /-- `time.sleep(0.1)` -/
  | sleepShort
  /-- `self.model.transcribe(path)`: the downstream consumer. -/
  | transcribeCall (path : String)
deriving DecidableEq

/-- The mutable recording-related state of the `WhisperApp` instance. -/
structure WhisperApp where
  /-- `self.is_recording` -/
  is_recording : Bool
  /-- `self.recording_data`: the accumulated chunk sequence. -/
  recording_data : List Chunk
  /-- whether `self.recording_stream` currently holds a stream object -/
  recording_stream : Bool
  /-- number of input streams started and not yet closed (not a Python
  attribute; it counts the `InputStream.start`/`close` calls) -/
  open_streams : Nat
  /-- `self.file_path` (the UI string variable holding the artifact path) -/
  file_path : String
  /-- `self.status` (the UI status line) -/
  status : String
  /-- `self.result_text` (the transcription output area) -/
  result_text : String
deriving DecidableEq

/-- `get_input_devices` (`whisper_app.py:125-135`): filter the platform
device list to entries with `max_input_channels > 0`, keeping the
enumeration index and the name; if the platform query itself raises, show
one error box and return the empty list. -/
def get_input_devices (query : Except String (List SoundDevice)) :
    List (Nat × String) × List AppEvent :=
  match query with
  | Except.error e =>
      ([], [AppEvent.showError ("Could not query audio devices: " ++ e)])
  | Except.ok info =>
      (((info.enum.filter fun p => 0 < p.2.max_input_channels).map
          fun p => (p.1, p.2.name)), [])

/-- The stream callback defined inside `start_recording`
(`whisper_app.py:151-154`): append a copy of the delivered chunk to
`recording_data`. -/
def callback (indata : Chunk) (s : WhisperApp) : WhisperApp :=
  { s with recording_data := s.recording_data ++ [indata] }

/-- The audio subsystem invoking `callback` once per delivered chunk, in
arrival order. -/
def run_callbacks (chunks : List Chunk) (s : WhisperApp) : WhisperApp :=
  chunks.foldl (fun st c => callback c st) s

/-- `start_recording` (`whisper_app.py:140-162`): early-return if already
recording; otherwise set the flag, reset the chunk list, update the UI and
open (and start) one input stream on the selected device. -/
def start_recording (device_idx : Option Nat) (s : WhisperApp) :
    WhisperApp × List AppEvent :=
  if s.is_recording then (s, [])
  else
    ({ s with
        is_recording := true
        recording_data := []
        status := "Recording... Press Stop to finish."
        result_text := ""
        recording_stream := true
        open_streams := s.open_streams + 1 },
     [AppEvent.setStatus "Recording... Press Stop to finish.",
      AppEvent.clearResult])

/-- `stop_recording` (`whisper_app.py:164-185`): early-return if not
recording; otherwise clear the flag, stop and close the stream, and if any
chunks were accumulated, concatenate them, convert to int16, write the
wave file with flush and fsync, and only then publish the path. The write
is not wrapped in any `try`/`except`; a raising write propagates out of
the method (third component). `recording_data` itself is never reset
here. -/
def stop_recording (wr : Except WriteError Unit) (s : WhisperApp) :
    WhisperApp × List AppEvent × Option WriteError :=
  if !s.is_recording then (s, [], none)
  else
    let s1 : WhisperApp :=
      if s.recording_stream then
        { s with is_recording := false, recording_stream := false,
                 open_streams := s.open_streams - 1 }
      else { s with is_recording := false }
    if s1.recording_data.isEmpty then
      ({ s1 with status := "No audio recorded." },
       [AppEvent.setStatus "No audio recorded."], none)
    else
      let pcm : List ℤ := (s1.recording_data.flatten).map int16OfSample
      match wr with
      | Except.error e => (s1, [], some e)
      | Except.ok _ =>
          ({ s1 with file_path := output_wav,
                     status := "Audio recorded and saved to " ++ output_wav },
           [AppEvent.wavWrite output_wav pcm, AppEvent.fileFlush,
            AppEvent.fileSync, AppEvent.setFilePath output_wav,
            AppEvent.setStatus ("Audio recorded and saved to " ++ output_wav)],
           none)

/-- The audio subsystem boundary for the fixed-duration mode:
`sd.rec(n, ...)` followed by `sd.wait()` delivers exactly `n` samples of
the device signal. -/
def sd_rec_wait (signal : Nat → Sample) (n : Nat) : List Sample :=
  (List.range n).map signal

/-- The fixed-duration capture common to `record_and_transcribe`
(`whisper_app.py:206-208`) and `record_audio_only` (`:282-284`):
`sd.rec(int(duration * rate), ...)` then `sd.wait()`. -/
def record_blocking (signal : Nat → Sample) (duration rate : Nat) :
    List Sample :=
  sd_rec_wait signal (duration * rate)

/-- `record_audio_only` (`whisper_app.py:271-306`): blocking fixed-duration
capture, int16 conversion, durable write, then path hand-off; the whole
body is inside `try`/`except`, so a write failure is reported via an error
box and an error status. `is_recording` and `recording_data` are never
touched. -/
def record_audio_only (signal : Nat → Sample) (wr : Except WriteError Unit)
    (s : WhisperApp) : WhisperApp × List AppEvent :=
  let s0 : WhisperApp := { s with status := "Recording audio only...", result_text := "" }
  let evs0 : List AppEvent :=
    [AppEvent.setStatus "Recording audio only...", AppEvent.clearResult]
  let recording := record_blocking signal record_duration sample_rate
  let pcm : List ℤ := recording.map int16OfSample
  match wr with
  | Except.error _ =>
      ({ s0 with status := "Error during recording" },
       evs0 ++ [AppEvent.setStatus "Recording finished, saving as WAV...",
                AppEvent.showError "Recording failed",
                AppEvent.setStatus "Error during recording"])
  | Except.ok _ =>
      ({ s0 with file_path := output_wav,
                 status := "Audio recorded and saved to " ++ output_wav },
       evs0 ++ [AppEvent.setStatus "Recording finished, saving as WAV...",
                AppEvent.wavWrite output_wav pcm, AppEvent.fileFlush,
                AppEvent.fileSync, AppEvent.sleepShort,
                AppEvent.setFilePath output_wav,
                AppEvent.setStatus ("Audio recorded and saved to " ++ output_wav)])

/-- `record_and_transcribe` (`whisper_app.py:191-242`): refuse without a
loaded model; otherwise blocking capture, int16 conversion, durable write,
path hand-off, then the transcription call; errors are caught at the
worker boundary and reported. `trText` is the text produced by the opaque
transcription gateway. -/
def record_and_transcribe (model_loaded : Bool) (signal : Nat → Sample)
    (wr : Except WriteError Unit) (trText : String) (s : WhisperApp) :
    WhisperApp × List AppEvent :=
  if !model_loaded then
    (s, [AppEvent.showError "Please load a model first!"])
  else
    let s0 : WhisperApp := { s with status := "Recording audio...", result_text := "" }
    let evs0 : List AppEvent :=
      [AppEvent.setStatus "Recording audio...", AppEvent.clearResult]
    let recording := record_blocking signal record_duration sample_rate
    let pcm : List ℤ := recording.map int16OfSample
    match wr with
    | Except.error _ =>
        ({ s0 with status := "Error during recording/transcription" },
         evs0 ++ [AppEvent.setStatus "Recording finished, saving as WAV...",
                  AppEvent.showError "Recording or transcription failed",
                  AppEvent.setStatus "Error during recording/transcription"])
    | Except.ok _ =>
        ({ s0 with file_path := output_wav,
                   result_text := trText,
                   status := "Transcription completed!" },
         evs0 ++ [AppEvent.setStatus "Recording finished, saving as WAV...",
                  AppEvent.wavWrite output_wav pcm, AppEvent.fileFlush,
                  AppEvent.fileSync, AppEvent.sleepShort,
                  AppEvent.setFilePath output_wav,
                  AppEvent.setStatus "Transcribing recorded audio...",
                  AppEvent.transcribeCall output_wav,
                  AppEvent.setStatus "Transcription completed!"])

/-! ### Helper lemmas -/

lemma run_callbacks_recording_data (chunks : List Chunk) (s : WhisperApp) :
    (run_callbacks chunks s).recording_data = s.recording_data ++ chunks := by
  induction chunks generalizing s with
  | nil => simp [run_callbacks]
  | cons c cs ih =>
    rw [show run_callbacks (c :: cs) s = run_callbacks cs (callback c s) from rfl, ih]
    simp [callback]

lemma isEmpty_false_of_ne_nil {α : Type _} {l : List α} (h : l ≠ []) :
    l.isEmpty = false := by
  cases l with
  | nil => exact absurd rfl h
  | cons a t => rfl

lemma enumFrom_pairwise_fst_lt {α : Type _} (n : ℕ) (l : List α) :
    (List.enumFrom n l).Pairwise fun a b => a.1 < b.1 := by
  induction l generalizing n with
  | nil => simp
  | cons a l ih =>
    refine List.pairwise_cons.mpr ⟨?_, ih (n + 1)⟩
    rintro ⟨i, x⟩ hb
    have hle := (List.mk_mem_enumFrom_iff_le_and_getElem?_sub.mp hb).1
    simpa using Nat.lt_of_succ_le hle

/-! ### C1: stop() concatenates the accumulated chunks -/

/-- C1: for a completed open-ended capture session with a non-empty
accumulated chunk sequence, `stop_recording` writes exactly the
concatenation of the accumulated chunks in arrival order, and the output
buffer's length is the sum of the chunk lengths. -/
theorem stop_recording_concatenates (s : WhisperApp)
    (h : s.is_recording = true) (hne : s.recording_data ≠ []) :
    ∃ pcm : List ℤ,
      AppEvent.wavWrite output_wav pcm ∈ (stop_recording (Except.ok ()) s).2.1 ∧
      pcm = (s.recording_data.flatten).map int16OfSample ∧
      pcm.length = (s.recording_data.map List.length).sum := by
  refine ⟨(s.recording_data.flatten).map int16OfSample, ?_, rfl, ?_⟩
  · have hne' := isEmpty_false_of_ne_nil hne
    by_cases hrs : s.recording_stream <;>
      simp [stop_recording, h, hrs, hne']
  · rw [List.length_map, List.length_flatten]

/-- Demo state for the spec's 100/250/50-sample scenario. -/
def sessionDemo : WhisperApp :=
  { is_recording := true
    recording_data := [List.replicate 100 0, List.replicate 250 0, List.replicate 50 0]
    recording_stream := true
    open_streams := 1
    file_path := ""
    status := "Recording... Press Stop to finish."
    result_text := "" }

/-- Witness for C1 at the three-chunk 100/250/50 scenario: the written
buffer has 400 samples. -/
theorem stop_recording_concatenates_witness :
    (sessionDemo.recording_data.map List.length).sum = 400 ∧
    ∃ pcm : List ℤ,
      AppEvent.wavWrite output_wav pcm ∈
        (stop_recording (Except.ok ()) sessionDemo).2.1 ∧
      pcm = (sessionDemo.recording_data.flatten).map int16OfSample ∧
      pcm.length = (sessionDemo.recording_data.map List.length).sum :=
  ⟨by simp [sessionDemo],
   stop_recording_concatenates sessionDemo rfl (by simp [sessionDemo])⟩

/-! ### C2: the float-to-int16 conversion -/

/-- C2: the conversion `np.int16(x * 32767)` multiplies by 32767 and
truncates to a signed 16-bit integer with no clamping; it is monotonic on
`[-1, 1]`, maps `1.0` to exactly `+32767`, and wraps (rather than clamps)
an out-of-range input such as `2.0` (to `-2`). -/
theorem int16OfSample_monotone_boundary (x y : Sample)
    (hx1 : -1 ≤ x) (hx2 : x ≤ 1) (hy1 : -1 ≤ y) (hy2 : y ≤ 1) (hxy : x ≤ y) :
    int16OfSample x ≤ int16OfSample y ∧
    int16OfSample 1 = 32767 ∧
    int16OfSample 2 = -2 := by
  refine ⟨?_, ?_, ?_⟩
  · rw [int16OfSample_in_range hx1 hx2, int16OfSample_in_range hy1 hy2]
    exact truncToward0_mono (by nlinarith)
  · norm_num [int16OfSample, truncToward0, int16Wrap]
  · norm_num [int16OfSample, truncToward0, int16Wrap]

/-- Witness for C2 at `x = 0`, `y = 1`. -/
theorem int16OfSample_monotone_boundary_witness :
    int16OfSample 0 ≤ int16OfSample 1 ∧
    int16OfSample 1 = 32767 ∧ int16OfSample 2 = -2 :=
  int16OfSample_monotone_boundary 0 1 (by norm_num) (by norm_num)
    (by norm_num) (by norm_num) (by norm_num)

/-! ### C3: flush and fsync precede the hand-off -/

/-- Every hand-off of the artifact path in a trace — publishing the path via
`setFilePath` or invoking the transcription gateway — is preceded by both an
explicit `fileFlush` and a `fileSync`. -/
def durableBeforeHandoff (evs : List AppEvent) : Prop :=
  ∀ k : Nat,
    ((∃ p, evs[k]? = some (AppEvent.setFilePath p)) ∨
     (∃ p, evs[k]? = some (AppEvent.transcribeCall p))) →
    (∃ i, i < k ∧ evs[i]? = some AppEvent.fileFlush) ∧
    (∃ j, j < k ∧ evs[j]? = some AppEvent.fileSync)

lemma durableBeforeHandoff_stop_trace (p : String) (pcm : List ℤ) (m : String) :
    durableBeforeHandoff
      [AppEvent.wavWrite p pcm, AppEvent.fileFlush, AppEvent.fileSync,
       AppEvent.setFilePath p, AppEvent.setStatus m] := by
  intro k hk
  match k with
  | 0 | 1 | 2 | 4 => simp at hk
  | 3 => exact ⟨⟨1, by omega, rfl⟩, ⟨2, by omega, rfl⟩⟩
  | n + 5 => simp at hk

lemma durableBeforeHandoff_rat_trace (m1 : String) (p : String) (pcm : List ℤ)
    (m2 m3 m4 : String) :
    durableBeforeHandoff
      [AppEvent.setStatus m1, AppEvent.clearResult, AppEvent.setStatus m2,
       AppEvent.wavWrite p pcm, AppEvent.fileFlush, AppEvent.fileSync,
       AppEvent.sleepShort, AppEvent.setFilePath p, AppEvent.setStatus m3,
       AppEvent.transcribeCall p, AppEvent.setStatus m4] := by
  intro k hk
  match k with
  | 0 | 1 | 2 | 3 | 4 | 5 | 6 | 8 | 10 => simp at hk
  | 7 => exact ⟨⟨4, by omega, rfl⟩, ⟨5, by omega, rfl⟩⟩
  | 9 => exact ⟨⟨4, by omega, rfl⟩, ⟨5, by omega, rfl⟩⟩
  | n + 11 => simp at hk

/-- C3: on every successful artifact write, both in `stop_recording` and in
`record_and_transcribe`, an explicit flush and an fsync happen before the
output path is handed to any downstream consumer (before `file_path` is
set and before transcription is invoked); no bare buffered write precedes
the hand-off. -/
theorem flush_sync_before_handoff (s s' : WhisperApp) (sig : Nat → Sample)
    (trText : String) (h : s.is_recording = true) (hne : s.recording_data ≠ []) :
    durableBeforeHandoff (stop_recording (Except.ok ()) s).2.1 ∧
    durableBeforeHandoff
      (record_and_transcribe true sig (Except.ok ()) trText s').2 := by
  constructor
  · have hne' := isEmpty_false_of_ne_nil hne
    by_cases hrs : s.recording_stream <;>
      ( simp only [stop_recording, h, hrs, hne', Bool.not_true, Bool.false_eq_true,
          if_false, if_true, Bool.true_eq_false]
        exact durableBeforeHandoff_stop_trace _ _ _ )
  · simp only [record_and_transcribe, Bool.not_true, Bool.false_eq_true, if_false]
    exact durableBeforeHandoff_rat_trace _ _ _ _ _ _

/-- Witness for C3 at the concrete demo session and an idle state. -/
theorem flush_sync_before_handoff_witness :
    durableBeforeHandoff (stop_recording (Except.ok ()) sessionDemo).2.1 ∧
    durableBeforeHandoff
      (record_and_transcribe true (fun _ => 0) (Except.ok ()) "hello"
        sessionDemo).2 :=
  flush_sync_before_handoff sessionDemo sessionDemo (fun _ => 0) "hello" rfl
    (by simp [sessionDemo])

/-! ### C4: start while already recording is a no-op -/

/-- C4: calling `start_recording` while the session is already recording is
an early-return: the state (including the accumulated chunk sequence) is
untouched and no event is produced; consequently a start on an idle state
followed by a second start opens exactly one stream and keeps the (empty)
chunk sequence of the first start. -/
theorem start_recording_noop_when_recording (d : Option Nat) (s : WhisperApp)
    (h : s.is_recording = true) :
    start_recording d s = (s, []) ∧
    ∀ s0 : WhisperApp, s0.is_recording = false →
      (start_recording d (start_recording d s0).1).1.open_streams =
        s0.open_streams + 1 ∧
      (start_recording d (start_recording d s0).1).1.recording_data =
        (start_recording d s0).1.recording_data := by
  constructor
  · simp [start_recording, h]
  · intro s0 h0
    simp [start_recording, h0]

/-- Witness for C4 at the concrete demo session. -/
theorem start_recording_noop_when_recording_witness :
    start_recording (some 0) sessionDemo = (sessionDemo, []) ∧
    ∀ s0 : WhisperApp, s0.is_recording = false →
      (start_recording (some 0) (start_recording (some 0) s0).1).1.open_streams =
        s0.open_streams + 1 ∧
      (start_recording (some 0) (start_recording (some 0) s0).1).1.recording_data =
        (start_recording (some 0) s0).1.recording_data :=
  start_recording_noop_when_recording (some 0) sessionDemo rfl

/-! ### C5: stopping with zero chunks -/

/-- C5: stopping a session that accumulated no chunks performs no
filesystem write, publishes no path downstream, leaves `file_path`
untouched, informs the user via the status line, transitions to idle, and
lets no exception escape. -/
theorem stop_recording_empty (wr : Except WriteError Unit) (s : WhisperApp)
    (h : s.is_recording = true) (he : s.recording_data = []) :
    (stop_recording wr s).1.is_recording = false ∧
    (∀ p pcm, AppEvent.wavWrite p pcm ∉ (stop_recording wr s).2.1) ∧
    (∀ p, AppEvent.setFilePath p ∉ (stop_recording wr s).2.1) ∧
    AppEvent.setStatus "No audio recorded." ∈ (stop_recording wr s).2.1 ∧
    (stop_recording wr s).1.file_path = s.file_path ∧
    (stop_recording wr s).2.2 = none := by
  by_cases hrs : s.recording_stream <;>
    simp [stop_recording, h, he, hrs]

/-- Demo state for a session stopped before any audio arrived. -/
def emptySessionDemo : WhisperApp :=
  { is_recording := true
    recording_data := []
    recording_stream := true
    open_streams := 1
    file_path := "previous.wav"
    status := "Recording... Press Stop to finish."
    result_text := "" }

/-- Witness for C5 at a concrete chunkless session. -/
theorem stop_recording_empty_witness :
    (stop_recording (Except.ok ()) emptySessionDemo).1.is_recording = false ∧
    (∀ p pcm,
      AppEvent.wavWrite p pcm ∉ (stop_recording (Except.ok ()) emptySessionDemo).2.1) ∧
    (∀ p,
      AppEvent.setFilePath p ∉ (stop_recording (Except.ok ()) emptySessionDemo).2.1) ∧
    AppEvent.setStatus "No audio recorded." ∈
      (stop_recording (Except.ok ()) emptySessionDemo).2.1 ∧
    (stop_recording (Except.ok ()) emptySessionDemo).1.file_path =
      emptySessionDemo.file_path ∧
    (stop_recording (Except.ok ()) emptySessionDemo).2.2 = none :=
  stop_recording_empty (Except.ok ()) emptySessionDemo rfl rfl

/-! ### C6: lifecycle of the accumulated chunk sequence -/

/-- A completed single-chunk session, for exhibiting that `stop_recording`
does not clear `recording_data`. -/
def oneChunkSession : WhisperApp :=
  { is_recording := true
    recording_data := [[0]]
    recording_stream := true
    open_streams := 1
    file_path := ""
    status := "Recording... Press Stop to finish."
    result_text := "" }

/-- C6 counterexample: completing a session via `stop_recording` does NOT
leave the accumulated chunk sequence empty — after stopping a session that
accumulated one chunk, `recording_data` still holds that chunk. -/
theorem stop_recording_leaves_chunks :
    (stop_recording (Except.ok ()) oneChunkSession).1.recording_data =
      [[0]] ∧ ([[0]] : List Chunk) ≠ [] := by
  constructor
  · simp [stop_recording, oneChunkSession]
  · simp

/-- C6 amended: the accumulated chunk sequence is append-only while the
session is recording (the callback only appends), `stop_recording` drains
it into the output but leaves it in place, and it is cleared by the next
successful `start_recording`. -/
theorem chunk_sequence_lifecycle (s : WhisperApp) (c : Chunk)
    (h : s.is_recording = true) (hne : s.recording_data ≠ []) :
    (callback c s).recording_data = s.recording_data ++ [c] ∧
    (stop_recording (Except.ok ()) s).1.recording_data = s.recording_data ∧
    ∀ s0 : WhisperApp, s0.is_recording = false →
      (start_recording none s0).1.recording_data = [] := by
  refine ⟨rfl, ?_, ?_⟩
  · have hne' := isEmpty_false_of_ne_nil hne
    by_cases hrs : s.recording_stream <;>
      simp [stop_recording, h, hrs, hne']
  · intro s0 h0
    simp [start_recording, h0]

/-- Witness for the amended C6 at the single-chunk session. -/
theorem chunk_sequence_lifecycle_witness :
    (callback [1] oneChunkSession).recording_data =
      oneChunkSession.recording_data ++ [[1]] ∧
    (stop_recording (Except.ok ()) oneChunkSession).1.recording_data =
      oneChunkSession.recording_data ∧
    ∀ s0 : WhisperApp, s0.is_recording = false →
      (start_recording none s0).1.recording_data = [] :=
  chunk_sequence_lifecycle oneChunkSession [1] rfl (by simp [oneChunkSession])

/-! ### C7: behaviour on a failing artifact write -/

/-- C7 counterexample: when the wave-file write raises (for instance on a
full disk) inside `stop_recording`, the method produces no user-facing
event at all — no error box, no status update — and the exception escapes
the method uncaught, contradicting "the failure is reported to the user
and no write failure escapes unreported". -/
theorem stop_write_failure_unreported :
    (stop_recording (Except.error WriteError.diskFull) oneChunkSession).2.1 = [] ∧
    (stop_recording (Except.error WriteError.diskFull) oneChunkSession).2.2 =
      some WriteError.diskFull := by
  constructor
  · simp [stop_recording, oneChunkSession]
  · simp [stop_recording, oneChunkSession]

/-- C7 amended: if the artifact write fails, the recording state still
resets to idle (the flag is cleared and the stream closed before the
write), but in `stop_recording` the failure escapes uncaught with no
user-facing report; only the blocking record path (`record_audio_only`)
catches the failure, reports it, and resets the status to an error
description. -/
theorem write_failure_resets_idle (e : WriteError) (s : WhisperApp)
    (h : s.is_recording = true) (hne : s.recording_data ≠ []) :
    (stop_recording (Except.error e) s).1.is_recording = false ∧
    (stop_recording (Except.error e) s).2.1 = [] ∧
    (stop_recording (Except.error e) s).2.2 = some e ∧
    ∀ (sig : Nat → Sample) (s0 : WhisperApp),
      AppEvent.showError "Recording failed" ∈
        (record_audio_only sig (Except.error e) s0).2 ∧
      (record_audio_only sig (Except.error e) s0).1.status =
        "Error during recording" ∧
      (record_audio_only sig (Except.error e) s0).1.is_recording =
        s0.is_recording := by
  have hne' := isEmpty_false_of_ne_nil hne
  refine ⟨?_, ?_, ?_, ?_⟩
  · by_cases hrs : s.recording_stream <;>
      simp [stop_recording, h, hrs, hne']
  · by_cases hrs : s.recording_stream <;>
      simp [stop_recording, h, hrs, hne']
  · by_cases hrs : s.recording_stream <;>
      simp [stop_recording, h, hrs, hne']
  · intro sig s0
    refine ⟨?_, rfl, rfl⟩
    simp [record_audio_only]

/-- Witness for the amended C7 at the single-chunk session and a
disk-full write failure. -/
theorem write_failure_resets_idle_witness :
    (stop_recording (Except.error WriteError.diskFull) oneChunkSession).1.is_recording
      = false ∧
    (stop_recording (Except.error WriteError.diskFull) oneChunkSession).2.1 = [] ∧
    (stop_recording (Except.error WriteError.diskFull) oneChunkSession).2.2 =
      some WriteError.diskFull ∧
    ∀ (sig : Nat → Sample) (s0 : WhisperApp),
      AppEvent.showError "Recording failed" ∈
        (record_audio_only sig (Except.error WriteError.diskFull) s0).2 ∧
      (record_audio_only sig (Except.error WriteError.diskFull) s0).1.status =
        "Error during recording" ∧
      (record_audio_only sig (Except.error WriteError.diskFull) s0).1.is_recording =
        s0.is_recording :=
  write_failure_resets_idle WriteError.diskFull oneChunkSession rfl
    (by simp [oneChunkSession])

/-! ### C8: device enumeration -/

/-- C8: `get_input_devices` returns exactly the platform devices with a
strictly positive input channel count, under their original enumeration
indices and in enumeration order (indices strictly increasing); when the
platform query fails, it returns the empty list (and only reports the
failure) instead of propagating it. -/
theorem get_input_devices_spec (info : List SoundDevice) (i : Nat)
    (nm : String) (e : String) :
    ((i, nm) ∈ (get_input_devices (Except.ok info)).1 ↔
      ∃ d : SoundDevice,
        info[i]? = some d ∧ 0 < d.max_input_channels ∧ nm = d.name) ∧
    ((get_input_devices (Except.ok info)).1.Pairwise fun a b => a.1 < b.1) ∧
    (get_input_devices (Except.error e)).1 = [] := by
  refine ⟨?_, ?_, rfl⟩
  · simp only [get_input_devices, List.mem_map, List.mem_filter]
    constructor
    · rintro ⟨⟨j, d⟩, ⟨hmem, hch⟩, heq⟩
      simp only [Prod.mk.injEq] at heq
      obtain ⟨rfl, rfl⟩ := heq
      exact ⟨d, List.mk_mem_enum_iff_getElem?.mp hmem,
        by simpa using hch, rfl⟩
    · rintro ⟨d, hget, hch, rfl⟩
      exact ⟨(i, d), ⟨List.mk_mem_enum_iff_getElem?.mpr hget,
        by simpa using hch⟩, rfl⟩
  · have hp : (info.enum).Pairwise fun a b : ℕ × SoundDevice => a.1 < b.1 :=
      enumFrom_pairwise_fst_lt 0 info
    exact (hp.filter _).map _ fun a b hab => hab

/-! ### C9: the fixed-duration capture variant -/

/-- C9: the fixed-duration capture delivers a buffer of exactly
`duration * rate` samples (2 s at 16000 Hz gives exactly 32000), and the
blocking path (`record_audio_only`) never touches the `is_recording` flag,
the chunk sequence, or the stream bookkeeping of the open-ended
machinery. -/
theorem record_blocking_length (sig : Nat → Sample) (d r : Nat)
    (wr : Except WriteError Unit) (s : WhisperApp) :
    (record_blocking sig d r).length = d * r ∧
    (record_blocking sig 2 16000).length = 32000 ∧
    (record_audio_only sig wr s).1.is_recording = s.is_recording ∧
    (record_audio_only sig wr s).1.recording_data = s.recording_data ∧
    (record_audio_only sig wr s).1.recording_stream = s.recording_stream ∧
    (record_audio_only sig wr s).1.open_streams = s.open_streams := by
  refine ⟨?_, ?_, ?_, ?_, ?_, ?_⟩ <;>
    cases wr <;>
      simp [record_blocking, sd_rec_wait, record_audio_only]

/-! ### C10: a new session never sees an earlier session's samples -/

/-- C10: every successful `start_recording` resets the accumulated chunk
sequence to empty before any chunk arrives, so after the audio subsystem
delivers this session's chunks the sequence holds exactly those chunks —
none of the samples left over from an earlier completed session. -/
theorem start_recording_isolates_sessions (d : Option Nat) (s : WhisperApp)
    (h : s.is_recording = false) (chunks : List Chunk) :
    (start_recording d s).1.recording_data = [] ∧
    (run_callbacks chunks (start_recording d s).1).recording_data = chunks := by
  have h1 : (start_recording d s).1.recording_data = [] := by
    simp [start_recording, h]
  exact ⟨h1, by rw [run_callbacks_recording_data, h1]; simp⟩

/-- A state left behind by an earlier completed session: idle, but with
that session's chunks still in `recording_data`. -/
def staleSession : WhisperApp :=
  { is_recording := false
    recording_data := [[1, 1], [1]]
    recording_stream := false
    open_streams := 0
    file_path := output_wav
    status := "Audio recorded and saved to recorded_audio.wav"
    result_text := "" }

/-- Witness for C10: restarting over the stale state and receiving two new
chunks leaves exactly those two chunks. -/
theorem start_recording_isolates_sessions_witness :
    (start_recording (some 0) staleSession).1.recording_data = [] ∧
    (run_callbacks [[2], [3]] (start_recording (some 0) staleSession).1).recording_data
      = [[2], [3]] :=
  start_recording_isolates_sessions (some 0) staleSession rfl [[2], [3]]
